import Mathlib

/-!
Shallow embedding of the cdpkit browser-session manager and crawl pipeline
(Go sources: browser/manager.go, tab/tab.go, crawler/crawler.go,
cdp/allocator.go, config/config.go), together with theorems settling the
specification claims about them.

Durations are modelled as integers (nanoseconds, like Go's time.Duration);
Go ints are modelled as Lean Int.  Effects of the external chromedp engine
(remote allocator connections, navigation, script evaluation) are modelled
as explicit oracle parameters: each operation that can succeed or fail in
the real engine takes its outcome as an input, and the theorems quantify
over all outcomes.
-/

/-- JavaScript-ish values as they cross the CDP boundary (Go
`interface{}` values decoded from JSON): null, booleans, numbers,
strings, arrays and string-keyed objects. -/
inductive JsVal where
  | null : JsVal
  | bool (b : Bool) : JsVal
  | num (n : Int) : JsVal
  | str (s : String) : JsVal
  | arr (xs : List JsVal) : JsVal
  | obj (fields : List (String × JsVal)) : JsVal

/-! ## browser/manager.go : BrowserManager (first variant, lines 17-111) -/

/-- State of a `BrowserManager` (browser/manager.go lines 17-27):
`tabCount` and `tabLimit` are the Go int fields; `hasCancel` models
whether the `cancel context.CancelFunc` field is non-nil.  The opaque
`allocCtx` handle has no observable content in the embedding. -/
structure BMState where
  tabCount : Int
  tabLimit : Int
  hasCancel : Bool
deriving DecidableEq, Repr

/-- Configuration fields of `config.Config` consumed by the first-variant
constructor `NewManagerFromConfig` (browser/manager.go lines 30-58):
the explicit remote endpoint and the requested tab limit. -/
structure Config1 where
  webSocketURL : String
  tabLimit : Int
deriving DecidableEq, Repr

/-- Go's `strings.HasPrefix`, on the character-list view of strings (kept
kernel-reducible, unlike `String.startsWith`). -/
def hasPre (pre s : String) : Bool := pre.data.isPrefixOf s.data

/-- Embeds `NewManagerFromConfig` (browser/manager.go lines 30-58).  The outcome
of `cdp.NewRemoteAllocator` is the oracle `allocOk`.  Besides the
`Except` result, the second component counts how many network connection
attempts (allocator calls / probes) were performed, so that "no network
probe happens on the validation-failure path" is observable. -/
def newManagerFromConfig (allocOk : Bool) (cfg : Config1) :
    Except String BMState × Nat :=
  if cfg.webSocketURL = "" then
    (Except.error "WebSocketURL must not be empty", 0)
  else if ¬ (hasPre "ws://" cfg.webSocketURL ∨
             hasPre "wss://" cfg.webSocketURL) then
    (Except.error "invalid WebSocketURL: must start with remote-debug scheme", 0)
  else if allocOk then
    (Except.ok
      { tabCount := 0
        tabLimit := if cfg.tabLimit ≤ 0 then 50 else cfg.tabLimit
        hasCancel := true }, 1)
  else
    (Except.error "remote allocator connection failed", 1)

/-- Embeds `restart` (browser/manager.go lines 87-102): cancel the old allocator,
re-create one on the recorded WebSocketURL (outcome given by the oracle
`allocOk`); on success the count is reset to zero and a fresh cancel
function is installed; on failure the state fields are left as they were. -/
def BMState.restart (allocOk : Bool) (s : BMState) : Option BMState :=
  if allocOk then some { s with tabCount := 0, hasCancel := true } else none

/-- Result of one `NewPageContext` call: the manager state afterwards,
whether the call returned a tab context (rather than an error), and how
many times `restart` was invoked during the call. -/
structure AcquireOut where
  state : BMState
  ok : Bool
  restarts : Nat
deriving DecidableEq, Repr

/-- Embeds `NewPageContext` (browser/manager.go lines 61-75): under the lock, if
`tabCount >= tabLimit` run `restart` (propagating its error and leaving
the count untouched on failure); otherwise / afterwards create a new tab
context from the current allocator and increment `tabCount`. -/
def BMState.newPageContext (restartOk : Bool) (s : BMState) : AcquireOut :=
  if s.tabLimit ≤ s.tabCount then
    match s.restart restartOk with
    | some s' => ⟨{ s' with tabCount := s'.tabCount + 1 }, true, 1⟩
    | none => ⟨s, false, 1⟩
  else
    ⟨{ s with tabCount := s.tabCount + 1 }, true, 0⟩

/-- Embeds `DecrementTabCount` (browser/manager.go lines 104-111): decrement the
count under the lock, but only when it is strictly positive. -/
def BMState.decrementTabCount (s : BMState) : BMState :=
  if 0 < s.tabCount then { s with tabCount := s.tabCount - 1 } else s

/-- Embeds `Shutdown` (browser/manager.go lines 78-84): call the cancel function
if it is non-nil and nil it out; the tab count is untouched. -/
def BMState.shutdown (s : BMState) : BMState :=
  if s.hasCancel then { s with hasCancel := false } else s

/-- Runs `n` consecutive `NewPageContext` calls (restart oracle always
succeeding): final state, whether every call succeeded, and the total
number of `restart` invocations across the calls. -/
def acquireN : Nat → BMState → BMState × Bool × Nat
  | 0, s => (s, true, 0)
  | n + 1, s =>
    let out := s.newPageContext true
    let (s', ok', r') := acquireN n out.state
    (s', out.ok && ok', out.restarts + r')

/-- The manager invariant of the spec: `0 ≤ tab-count ≤ tab-limit`. -/
def BMState.invariant (s : BMState) : Prop :=
  0 ≤ s.tabCount ∧ s.tabCount ≤ s.tabLimit

instance (s : BMState) : Decidable s.invariant := by
  unfold BMState.invariant; infer_instance

/-- Helper: `k` acquisitions that stay strictly within the limit never
restart, always succeed, and add exactly `k` to the tab count. -/
theorem acquireN_within_limit (k : Nat) :
    ∀ s : BMState, s.tabCount + k ≤ s.tabLimit →
      acquireN k s = ({ s with tabCount := s.tabCount + k }, true, 0) := by
  induction k with
  | zero =>
    intro s _
    simp [acquireN]
  | succ n ih =>
    intro s h
    have hlt : ¬ s.tabLimit ≤ s.tabCount := by omega
    have hstep : s.newPageContext true =
        ⟨{ s with tabCount := s.tabCount + 1 }, true, 0⟩ := by
      simp [BMState.newPageContext, hlt]
    have hrec := ih { s with tabCount := s.tabCount + 1 } (by simp; omega)
    simp [acquireN, hstep, hrec]
    omega

/-- C1: for every tab limit L ≥ 1, a freshly constructed manager with
`TabLimit = L` serves L consecutive `NewPageContext` calls successfully
with no `restart`; the (L+1)-th call invokes `restart` exactly once, and
when that restart succeeds the tab count right after the call is 1. -/
theorem tab_limit_restart_resets_count (L : Nat) (hL : 1 ≤ L) :
    (newManagerFromConfig true ⟨"ws://localhost:9222", (L : Int)⟩).1 =
      Except.ok ⟨0, (L : Int), true⟩ ∧
    acquireN L ⟨0, (L : Int), true⟩ = (⟨(L : Int), (L : Int), true⟩, true, 0) ∧
    (BMState.newPageContext true ⟨(L : Int), (L : Int), true⟩).restarts = 1 ∧
    (BMState.newPageContext true ⟨(L : Int), (L : Int), true⟩).ok = true ∧
    (BMState.newPageContext true ⟨(L : Int), (L : Int), true⟩).state.tabCount = 1 := by
  have hpos : ¬ ((L : Int) ≤ 0) := by exact_mod_cast by omega
  refine ⟨?_, ?_, ?_, ?_, ?_⟩
  · have hne : ¬ (("ws://localhost:9222" : String) = "") := by decide
    have hsw : ¬¬(hasPre "ws://" "ws://localhost:9222" = true ∨
        hasPre "wss://" "ws://localhost:9222" = true) := by decide
    unfold newManagerFromConfig
    rw [if_neg hne, if_neg hsw]
    simp [hpos]
  · have := acquireN_within_limit L ⟨0, (L : Int), true⟩ (by simp)
    simpa using this
  · simp [BMState.newPageContext, BMState.restart]
  · simp [BMState.newPageContext, BMState.restart]
  · simp [BMState.newPageContext, BMState.restart]

/-- Witness for C1 at L = 2. -/
theorem tab_limit_restart_resets_count_witness :
    1 ≤ 2 ∧
    ((newManagerFromConfig true ⟨"ws://localhost:9222", (2 : Int)⟩).1 =
      Except.ok ⟨0, (2 : Int), true⟩ ∧
    acquireN 2 ⟨0, (2 : Int), true⟩ = (⟨(2 : Int), (2 : Int), true⟩, true, 0) ∧
    (BMState.newPageContext true ⟨(2 : Int), (2 : Int), true⟩).restarts = 1 ∧
    (BMState.newPageContext true ⟨(2 : Int), (2 : Int), true⟩).ok = true ∧
    (BMState.newPageContext true ⟨(2 : Int), (2 : Int), true⟩).state.tabCount = 1) :=
  ⟨by decide, tab_limit_restart_resets_count 2 (by decide)⟩

/-- C2: from any state satisfying `0 ≤ tab-count ≤ tab-limit` with
`tab-limit ≥ 1`, every operation of the manager — `NewPageContext` with
either restart outcome (including the failing-restart path),
`DecrementTabCount`, `Shutdown`, and a successful `restart` — yields a
state that again satisfies `0 ≤ tab-count ≤ tab-limit`. -/
theorem manager_invariant_preserved (s : BMState)
    (hinv : s.invariant) (hlim : 1 ≤ s.tabLimit) :
    (∀ restartOk : Bool, (s.newPageContext restartOk).state.invariant) ∧
    s.decrementTabCount.invariant ∧
    s.shutdown.invariant ∧
    (∀ (allocOk : Bool) (s' : BMState), s.restart allocOk = some s' → s'.invariant) := by
  obtain ⟨h0, h1⟩ := hinv
  refine ⟨?_, ?_, ?_, ?_⟩
  · intro restartOk
    by_cases hfull : s.tabLimit ≤ s.tabCount
    · cases restartOk with
      | true =>
        simp [BMState.newPageContext, BMState.restart, hfull, BMState.invariant]
        omega
      | false =>
        simpa [BMState.newPageContext, BMState.restart, hfull, BMState.invariant]
          using ⟨h0, h1⟩
    · simp [BMState.newPageContext, hfull, BMState.invariant]
      omega
  · by_cases hc : 0 < s.tabCount <;>
      simp [BMState.decrementTabCount, BMState.invariant, hc] <;> omega
  · by_cases hc : s.hasCancel <;>
      simp [BMState.shutdown, BMState.invariant, hc] <;> omega
  · intro allocOk s' h
    simp only [BMState.restart] at h
    split at h
    · cases h
      simpa [BMState.invariant] using by omega
    · cases h

/-- Witness for C2 at a concrete state with count 1 and limit 2. -/
theorem manager_invariant_preserved_witness :
    (BMState.invariant ⟨1, 2, true⟩ ∧ 1 ≤ (2 : Int)) ∧
    ((∀ restartOk : Bool,
        ((⟨1, 2, true⟩ : BMState).newPageContext restartOk).state.invariant) ∧
     (⟨1, 2, true⟩ : BMState).decrementTabCount.invariant ∧
     (⟨1, 2, true⟩ : BMState).shutdown.invariant ∧
     (∀ (allocOk : Bool) (s' : BMState),
        (⟨1, 2, true⟩ : BMState).restart allocOk = some s' → s'.invariant)) :=
  ⟨⟨by decide, by decide⟩,
   manager_invariant_preserved ⟨1, 2, true⟩ (by decide) (by decide)⟩

/-- C8: a configuration whose explicit endpoint is non-empty but does not
start with `ws://` or `wss://` makes `NewManagerFromConfig` return an
error (no manager), with zero network connection attempts performed. -/
theorem invalid_endpoint_rejected_without_probe (allocOk : Bool) (cfg : Config1)
    (hne : ¬ (cfg.webSocketURL = ""))
    (hw : hasPre "ws://" cfg.webSocketURL = false)
    (hws : hasPre "wss://" cfg.webSocketURL = false) :
    (∃ e, (newManagerFromConfig allocOk cfg).1 = Except.error e) ∧
    (newManagerFromConfig allocOk cfg).2 = 0 := by
  have hcond : ¬ (hasPre "ws://" cfg.webSocketURL ∨ hasPre "wss://" cfg.webSocketURL) := by
    simp [hw, hws]
  unfold newManagerFromConfig
  rw [if_neg hne, if_pos hcond]
  exact ⟨⟨_, rfl⟩, rfl⟩

/-- Witness for C8 at the endpoint `"http://localhost:9222"`. -/
theorem invalid_endpoint_rejected_without_probe_witness :
    (¬ ((Config1.mk "http://localhost:9222" 2).webSocketURL = "") ∧
     hasPre "ws://" (Config1.mk "http://localhost:9222" 2).webSocketURL = false ∧
     hasPre "wss://" (Config1.mk "http://localhost:9222" 2).webSocketURL = false) ∧
    ((∃ e, (newManagerFromConfig true (Config1.mk "http://localhost:9222" 2)).1 =
        Except.error e) ∧
     (newManagerFromConfig true (Config1.mk "http://localhost:9222" 2)).2 = 0) :=
  ⟨⟨by decide, by decide, by decide⟩,
   invalid_endpoint_rejected_without_probe true _ (by decide) (by decide) (by decide)⟩

/-! ## tab/tab.go : Tab handles (lines 17-99) -/

/-- Observable state of a `Tab` handle (tab/tab.go lines 17-21):
`hasCancel` models whether the `Cancel` field is non-nil, `cancelCalls`
counts how many times the cancel function has actually been invoked,
`hasCtx` whether `Ctx` is non-nil. -/
structure TabM where
  hasCancel : Bool
  cancelCalls : Nat
  hasCtx : Bool
deriving DecidableEq, Repr

/-- Embeds `Tab.Close` (tab/tab.go lines 81-90): invoke and nil the cancel
function only if it is still non-nil, nil the context, and — with a
non-nil manager — call `DecrementTabCount` unconditionally. -/
def closeTab (t : TabM) (s : BMState) : TabM × BMState :=
  let t1 := if t.hasCancel then
      { t with hasCancel := false, cancelCalls := t.cancelCalls + 1 }
    else t
  ({ t1 with hasCtx := false }, s.decrementTabCount)

/-- A release-side call observable on the manager count: a `Tab.Close`
(of some handle) or a bare `DecrementTabCount`. -/
inductive RelOp where
  | close : RelOp
  | decr : RelOp
deriving DecidableEq, Repr

/-- Run a sequence of release-side calls against the manager state. -/
def runRelOps : List RelOp → BMState → BMState
  | [], s => s
  | RelOp.close :: rest, s => runRelOps rest (closeTab ⟨true, 0, true⟩ s).2
  | RelOp.decr :: rest, s => runRelOps rest s.decrementTabCount

/-- C4 counterexample: with two tabs acquired (count 2), closing the same
handle twice decrements twice — the count is 1 after the first `Close`
but 0 after the second, so the second `Close` is not a no-op on the
tab-count. -/
theorem close_twice_decrements_twice_counterexample :
    (acquireN 2 ⟨0, 50, true⟩).1 = ⟨2, 50, true⟩ ∧
    (closeTab ⟨true, 0, true⟩ ⟨2, 50, true⟩).2.tabCount = 1 ∧
    (closeTab (closeTab ⟨true, 0, true⟩ ⟨2, 50, true⟩).1
      (closeTab ⟨true, 0, true⟩ ⟨2, 50, true⟩).2).2.tabCount = 0 ∧
    ¬ ((0 : Int) = 1) := by decide

/-- Lemma: `DecrementTabCount` never takes the count below zero. -/
theorem decrementTabCount_nonneg (s : BMState) (h : 0 ≤ s.tabCount) :
    0 ≤ s.decrementTabCount.tabCount := by
  by_cases hc : 0 < s.tabCount <;> simp [BMState.decrementTabCount, hc] <;> omega

/-- No sequence of release-side calls takes a nonnegative count below
zero. -/
theorem runRelOps_nonneg (ops : List RelOp) :
    ∀ s : BMState, 0 ≤ s.tabCount → 0 ≤ (runRelOps ops s).tabCount := by
  induction ops with
  | nil => intro s h; exact h
  | cons op rest ih =>
    intro s h
    cases op with
    | close => exact ih _ (decrementTabCount_nonneg s h)
    | decr => exact ih _ (decrementTabCount_nonneg s h)

/-- C4 amended: `Close` calls `DecrementTabCount` unconditionally, so a
second `Close` of the same handle decrements the count again whenever it
is still positive (it is not a no-op on the count); only the cancel
function is guarded, being invoked at most once across the two calls; and
no sequence of `Close` / `DecrementTabCount` calls ever drives the
tab-count below zero. -/
theorem close_second_decrements_again (t : TabM) (s : BMState)
    (h1 : 1 ≤ (closeTab t s).2.tabCount) (h0 : 0 ≤ s.tabCount)
    (ops : List RelOp) :
    (closeTab (closeTab t s).1 (closeTab t s).2).2.tabCount =
      (closeTab t s).2.tabCount - 1 ∧
    (closeTab (closeTab t s).1 (closeTab t s).2).1.cancelCalls =
      t.cancelCalls + (if t.hasCancel then 1 else 0) ∧
    0 ≤ (runRelOps ops s).tabCount := by
  have hdec : ∀ s' : BMState, 1 ≤ s'.tabCount →
      s'.decrementTabCount.tabCount = s'.tabCount - 1 := by
    intro s' h
    have hc : 0 < s'.tabCount := by omega
    simp [BMState.decrementTabCount, hc]
  refine ⟨?_, ?_, ?_⟩
  · show s.decrementTabCount.decrementTabCount.tabCount =
      s.decrementTabCount.tabCount - 1
    exact hdec _ h1
  · by_cases hc : t.hasCancel <;> simp [closeTab, hc]
  · exact runRelOps_nonneg ops s h0

/-- Witness for C4's amended statement at a concrete handle and state. -/
theorem close_second_decrements_again_witness :
    (1 ≤ (closeTab ⟨true, 0, true⟩ ⟨2, 50, true⟩).2.tabCount ∧
     0 ≤ (2 : Int)) ∧
    ((closeTab (closeTab ⟨true, 0, true⟩ ⟨2, 50, true⟩).1
        (closeTab ⟨true, 0, true⟩ ⟨2, 50, true⟩).2).2.tabCount =
      (closeTab ⟨true, 0, true⟩ ⟨2, 50, true⟩).2.tabCount - 1 ∧
     (closeTab (closeTab ⟨true, 0, true⟩ ⟨2, 50, true⟩).1
        (closeTab ⟨true, 0, true⟩ ⟨2, 50, true⟩).2).1.cancelCalls =
      0 + (if (true : Bool) then 1 else 0) ∧
     0 ≤ (runRelOps [RelOp.close, RelOp.close, RelOp.decr] ⟨2, 50, true⟩).tabCount) :=
  ⟨⟨by decide, by decide⟩,
   close_second_decrements_again ⟨true, 0, true⟩ ⟨2, 50, true⟩ (by decide) (by decide)
     [RelOp.close, RelOp.close, RelOp.decr]⟩

/-- Embeds `Tab.DefaultTimeout` (tab/tab.go lines 29-34): the tab's configured
timeout, falling back to 30 seconds when it is zero or negative.
Durations in nanoseconds, like Go's `time.Duration`. -/
def defaultTimeout (tabTimeout : Int) : Int :=
  if tabTimeout ≤ 0 then 30 * 1000000000 else tabTimeout

/-- Effective deadline used by `Tab.Navigate` (tab/tab.go lines 37-44):
a zero or negative argument is replaced by `DefaultTimeout`. -/
def navigateTimeout (tabTimeout timeout : Int) : Int :=
  if timeout ≤ 0 then defaultTimeout tabTimeout else timeout

/-- Effective deadline used by `Tab.RunJS` (tab/tab.go lines 47-56). -/
def runJSTimeout (tabTimeout timeout : Int) : Int :=
  if timeout ≤ 0 then defaultTimeout tabTimeout else timeout

/-- Effective deadline used by `Tab.HTML` (tab/tab.go lines 59-68). -/
def htmlTimeout (tabTimeout timeout : Int) : Int :=
  if timeout ≤ 0 then defaultTimeout tabTimeout else timeout

/-- Effective deadline used by `Tab.WaitVisible` (tab/tab.go
lines 71-78). -/
def waitVisibleTimeout (tabTimeout timeout : Int) : Int :=
  if timeout ≤ 0 then defaultTimeout tabTimeout else timeout

/-- C9: for every tab timeout and argument, each of `Navigate`, `RunJS`,
`HTML` and `WaitVisible` runs with a strictly positive finite deadline:
the argument when positive, else the tab's timeout when positive, else
the fixed 30-second default. -/
theorem tab_operations_positive_deadline (tabTimeout timeout : Int) :
    (0 < navigateTimeout tabTimeout timeout ∧
     0 < runJSTimeout tabTimeout timeout ∧
     0 < htmlTimeout tabTimeout timeout ∧
     0 < waitVisibleTimeout tabTimeout timeout) ∧
    navigateTimeout tabTimeout timeout =
      (if 0 < timeout then timeout
       else if 0 < tabTimeout then tabTimeout else 30 * 1000000000) ∧
    runJSTimeout tabTimeout timeout = navigateTimeout tabTimeout timeout ∧
    htmlTimeout tabTimeout timeout = navigateTimeout tabTimeout timeout ∧
    waitVisibleTimeout tabTimeout timeout = navigateTimeout tabTimeout timeout := by
  unfold navigateTimeout runJSTimeout htmlTimeout waitVisibleTimeout defaultTimeout
  by_cases ha : timeout ≤ 0 <;> by_cases ht : tabTimeout ≤ 0 <;>
    simp [ha, ht, show ¬ (0 < timeout) ↔ timeout ≤ 0 from by omega] <;>
    omega

/-! ## cdp/allocator.go : flag merge (lines 14-55) -/

/-- A `chromedp.ExecAllocatorOption` as far as `collectFlags` can observe
it: either a named flag with a value, or some other kind of option
(exec path, env, ...), which the merge skips. -/
inductive ExecOpt where
  | flag (name : String) (value : JsVal)
  | other (tag : String)

/-- Go map assignment `flagMap[k] = v`, on the function view of the map. -/
def insertFlag (m : String → Option JsVal) (k : String) (v : JsVal) :
    String → Option JsVal :=
  fun q => if q = k then some v else m q

/-- One pass of `collectFlags` (cdp/allocator.go lines 37-47): write every
flag-typed option of the list into the map, in order; skip non-flag
options. -/
def addFlags (opts : List ExecOpt) (m : String → Option JsVal) :
    String → Option JsVal :=
  opts.foldl
    (fun acc o =>
      match o with
      | ExecOpt.flag k v => insertFlag acc k v
      | ExecOpt.other _ => acc)
    m

/-- Embeds `collectFlags` (cdp/allocator.go lines 34-55): insert the default
flags, then the user flags, into one map (so a user flag overrides a
default flag of the same name).  The Go function finally linearises the
map in (nondeterministic) iteration order; the embedding keeps the map
itself, which carries the same name-to-value contents. -/
def collectFlags (defaultFlags userFlags : List ExecOpt) :
    String → Option JsVal :=
  addFlags userFlags (addFlags defaultFlags (fun _ => none))

/-- The value the Go map holds for `key` after writing every flag of the
list in order: the value of the last flag-typed option named `key`. -/
def lastFlag : List ExecOpt → String → Option JsVal
  | [], _ => none
  | ExecOpt.flag k v :: rest, key =>
    match lastFlag rest key with
    | some w => some w
    | none => if key = k then some v else none
  | ExecOpt.other _ :: rest, key => lastFlag rest key

/-- Writing a list of options into a map reads back as: the last flag of
the list with that name, else whatever the map already held. -/
theorem addFlags_lookup (opts : List ExecOpt) :
    ∀ (m : String → Option JsVal) (key : String),
      addFlags opts m key =
        match lastFlag opts key with
        | some v => some v
        | none => m key := by
  induction opts with
  | nil => intro m key; rfl
  | cons o rest ih =>
    intro m key
    cases o with
    | flag k v =>
      have hstep : addFlags (ExecOpt.flag k v :: rest) m =
          addFlags rest (insertFlag m k v) := rfl
      rw [hstep, ih]
      cases hrest : lastFlag rest key with
      | some w => simp [lastFlag, hrest]
      | none =>
        by_cases hk : key = k
        · subst hk
          simp [lastFlag, hrest, insertFlag]
        · simp [lastFlag, hrest, insertFlag, hk]
    | other tag =>
      have hstep : addFlags (ExecOpt.other tag :: rest) m = addFlags rest m := rfl
      rw [hstep, ih]
      simp [lastFlag]

/-- C7: the merged flag map is total with user priority — a name is
present in the merge iff it is a baseline or a user flag name; a name the
user set maps to the user's value; a name the user did not set maps to
its baseline value (so on disjoint key sets the merge is exactly the
union). -/
theorem collectFlags_total_user_wins (d u : List ExecOpt) (key : String) :
    ((collectFlags d u key).isSome ↔
      (lastFlag d key).isSome ∨ (lastFlag u key).isSome) ∧
    (∀ v, lastFlag u key = some v → collectFlags d u key = some v) ∧
    (lastFlag u key = none → collectFlags d u key = lastFlag d key) := by
  have h : collectFlags d u key =
      match lastFlag u key with
      | some v => some v
      | none =>
        match lastFlag d key with
        | some v => some v
        | none => none := by
    unfold collectFlags
    rw [addFlags_lookup, addFlags_lookup]
  refine ⟨?_, ?_, ?_⟩
  · rw [h]
    cases lastFlag u key <;> cases lastFlag d key <;> simp
  · intro v hv
    rw [h, hv]
  · intro hu
    rw [h, hu]
    cases lastFlag d key <;> rfl

/-- Baseline and user flag lists for the C7 witness: `headless` is
overlapping (user overrides), `no-sandbox` is baseline-only, and a
non-flag option is skipped. -/
def witnessDefaultFlags : List ExecOpt :=
  [ExecOpt.flag "disable-blink-features" (JsVal.str "AutomationControlled"),
   ExecOpt.flag "headless" (JsVal.bool true),
   ExecOpt.flag "no-sandbox" (JsVal.bool true)]

/-- User flag list for the C7 witness. -/
def witnessUserFlags : List ExecOpt :=
  [ExecOpt.flag "headless" (JsVal.bool false),
   ExecOpt.other "execPath"]

/-- Witness for C7: the user's `headless` wins over the baseline value,
and the baseline-only `no-sandbox` survives untouched. -/
theorem collectFlags_total_user_wins_witness :
    (lastFlag witnessUserFlags "headless" = some (JsVal.bool false) ∧
     collectFlags witnessDefaultFlags witnessUserFlags "headless" =
       some (JsVal.bool false)) ∧
    (lastFlag witnessUserFlags "no-sandbox" = none ∧
     collectFlags witnessDefaultFlags witnessUserFlags "no-sandbox" =
       lastFlag witnessDefaultFlags "no-sandbox") :=
  ⟨⟨rfl,
    (collectFlags_total_user_wins witnessDefaultFlags witnessUserFlags
      "headless").2.1 (JsVal.bool false) rfl⟩,
   ⟨rfl,
    (collectFlags_total_user_wins witnessDefaultFlags witnessUserFlags
      "no-sandbox").2.2 rfl⟩⟩

/-! ## crawler/crawler.go : Options and New (lines 29-157) -/

/-- Embeds `crawler.Options` (crawler/crawler.go lines 30-53).  `browserFlags`
lists the entries of the Go `map[string]interface{}` (a nil map is the
empty list). -/
structure CrawlOptions where
  concurrency : Int
  timeout : Int
  proxyURL : String
  userAgent : String
  windowSize : Int × Int
  headless : Bool
  disableJS : Bool
  browserFlags : List (String × JsVal)
  debugPort : Int
  saveHTML : Bool
  logLevel : Int

/-- Embeds `DefaultOptions` (crawler/crawler.go lines 56-70). -/
def defaultOptions : CrawlOptions :=
  { concurrency := 5
    timeout := 60 * 1000000000
    proxyURL := ""
    userAgent := ""
    windowSize := (1280, 720)
    headless := true
    disableJS := false
    browserFlags :=
      [("no-sandbox", JsVal.bool true),
       ("disable-gpu", JsVal.bool true),
       ("disable-dev-shm-usage", JsVal.bool true)]
    debugPort := 9222
    saveHTML := false
    logLevel := 3 }

/-- Go map assignment `m[k] = v` on the association-list view of a map:
replace the value if the key is present, else append the pair. -/
def putFlag (m : List (String × JsVal)) (k : String) (v : JsVal) :
    List (String × JsVal) :=
  if k ∈ m.map Prod.fst then
    m.map (fun p => if p.1 = k then (p.1, v) else p)
  else m ++ [(k, v)]

/-- Go map lookup `m[k]` on the association-list view. -/
def lookupFlag : List (String × JsVal) → String → Option JsVal
  | [], _ => none
  | p :: rest, k => if p.1 = k then some p.2 else lookupFlag rest k

/-- The effective options computed by `crawler.New` (crawler/crawler.go
lines 82-121): each caller field overrides the `DefaultOptions` value
only when non-zero — except `Headless`, `DisableJS` and `SaveHTML`
(lines 105-107), which are copied unconditionally — the caller's browser
flags are merged over the defaults, and the `headless` flag is then
forced to the copied `Headless` value (line 120). -/
def newOptions (options : CrawlOptions) : CrawlOptions :=
  let merged := options.browserFlags.foldl (fun m kv => putFlag m kv.1 kv.2)
    defaultOptions.browserFlags
  { concurrency := if 0 < options.concurrency then options.concurrency
      else defaultOptions.concurrency
    timeout := if 0 < options.timeout then options.timeout
      else defaultOptions.timeout
    proxyURL := if options.proxyURL ≠ "" then options.proxyURL
      else defaultOptions.proxyURL
    userAgent := if options.userAgent ≠ "" then options.userAgent
      else defaultOptions.userAgent
    windowSize := if 0 < options.windowSize.1 ∧ 0 < options.windowSize.2 then
      options.windowSize else defaultOptions.windowSize
    headless := options.headless
    disableJS := options.disableJS
    browserFlags := putFlag merged "headless" (JsVal.bool options.headless)
    debugPort := if 0 < options.debugPort then options.debugPort
      else defaultOptions.debugPort
    saveHTML := options.saveHTML
    logLevel := if 0 < options.logLevel then options.logLevel
      else defaultOptions.logLevel }

/-- Replacing the value at a present key is read back by `lookupFlag`. -/
theorem lookupFlag_replaceAll (k : String) (v : JsVal) :
    ∀ m : List (String × JsVal), k ∈ m.map Prod.fst →
      lookupFlag (m.map (fun p => if p.1 = k then (p.1, v) else p)) k = some v := by
  intro m
  induction m with
  | nil => intro h; simp at h
  | cons p rest ih =>
    intro h
    by_cases hp : p.1 = k
    · simp [lookupFlag, hp]
    · have hr : k ∈ rest.map Prod.fst := by
        rcases (by simpa using h) with h' | h'
        · exact absurd h'.symm hp
        · simpa using h'
      simp [lookupFlag, hp, ih hr]

/-- Appending a fresh key is read back by `lookupFlag`. -/
theorem lookupFlag_append_fresh (k : String) (v : JsVal) :
    ∀ m : List (String × JsVal), ¬ k ∈ m.map Prod.fst →
      lookupFlag (m ++ [(k, v)]) k = some v := by
  intro m
  induction m with
  | nil => intro _; simp [lookupFlag]
  | cons p rest ih =>
    intro h
    have hp : ¬ (p.1 = k) := fun he => h (by simp [he])
    have hr : ¬ k ∈ rest.map Prod.fst := fun hm => h (by simp [hm])
    simp [lookupFlag, hp, ih hr]

/-- A `putFlag` write is read back by `lookupFlag` at the same key. -/
theorem lookupFlag_putFlag (m : List (String × JsVal)) (k : String) (v : JsVal) :
    lookupFlag (putFlag m k v) k = some v := by
  unfold putFlag
  by_cases hc : k ∈ m.map Prod.fst
  · rw [if_pos hc]
    exact lookupFlag_replaceAll k v m hc
  · rw [if_neg hc]
    exact lookupFlag_append_fresh k v m hc

/-- C10: `crawler.New` copies the caller's `Headless` field into the
effective options unconditionally, and the merged browser flags map
`"headless"` to exactly that copied value; hence for a caller who leaves
`Headless` at its zero value `false`, the browser is configured
non-headless and `DefaultOptions`' `Headless = true` never takes
effect. -/
theorem new_headless_copied_unconditionally (options : CrawlOptions) :
    (newOptions options).headless = options.headless ∧
    lookupFlag (newOptions options).browserFlags "headless" =
      some (JsVal.bool options.headless) ∧
    ((newOptions { options with headless := false }).headless = false ∧
     lookupFlag (newOptions { options with headless := false }).browserFlags
       "headless" = some (JsVal.bool false)) := by
  have hflag : ∀ o : CrawlOptions,
      lookupFlag (newOptions o).browserFlags "headless" =
        some (JsVal.bool o.headless) := by
    intro o
    show lookupFlag
      (putFlag (o.browserFlags.foldl (fun m kv => putFlag m kv.1 kv.2)
        defaultOptions.browserFlags) "headless" (JsVal.bool o.headless))
      "headless" = some (JsVal.bool o.headless)
    exact lookupFlag_putFlag _ _ _
  exact ⟨rfl, hflag options, rfl, hflag _⟩

/-! ## crawler/crawler.go : Fetch and FetchAll (lines 16-305) -/

/-- Embeds `crawler.Result` (crawler/crawler.go lines 17-27), restricted to the
fields the claims observe.  `data` is the `map[string]interface{}` field
(`none` when never assigned); timing fields and the unserialized raw JS
value are omitted. -/
structure CrawlResult where
  url : String
  title : String
  html : String
  data : Option (List (String × JsVal))
  error : String

/-- Outcomes of the external engine during one `Fetch`, per URL:
tab acquisition (`NewPageContext`), navigation, the `document.title`
evaluation, the wrapped custom script, and the HTML extraction. -/
structure FetchEnv where
  acquire : String → Except String Unit
  nav : String → Option String
  titleJS : String → Except String JsVal
  script : String → Except String JsVal
  htmlOf : String → Except String String

/-- Go's `fmt.Sprintf("%v", x)` as applied to a decoded JS value, used
for the page title.  Nested values are rendered opaquely; no claim
inspects the rendering. -/
def jsDisplay : JsVal → String
  | JsVal.null => "<nil>"
  | JsVal.bool b => if b then "true" else "false"
  | JsVal.num n => toString n
  | JsVal.str s => s
  | JsVal.arr _ => "[...]"
  | JsVal.obj _ => "map[...]"

/-- The title step (crawler/crawler.go lines 196-199): on a successful,
non-nil evaluation the title is recorded; on error or nil the result is
left untouched. -/
def applyTitle (tres : Except String JsVal) (r : CrawlResult) : CrawlResult :=
  match tres with
  | Except.ok JsVal.null => r
  | Except.ok t => { r with title := jsDisplay t }
  | Except.error _ => r

/-- The script-result conversion (crawler/crawler.go lines 228-236): a
map is stored as-is, anything else under the key `"result"`. -/
def toDataMap (v : JsVal) : List (String × JsVal) :=
  match v with
  | JsVal.obj fields => fields
  | v => [("result", v)]

/-- The custom-script step (crawler/crawler.go lines 202-238): skipped
for an empty script; a script error is recorded in `Error` (not
propagated), a script value is converted and stored in `Data`. -/
def applyScript (jsScript : String) (sres : Except String JsVal)
    (r : CrawlResult) : CrawlResult :=
  if jsScript = "" then r
  else
    match sres with
    | Except.error e => { r with error := "script execution failed: " ++ e }
    | Except.ok v => { r with data := some (toDataMap v) }

/-- The HTML step (crawler/crawler.go lines 241-246): only when
`SaveHTML` is set, and only on success. -/
def applyHTML (saveHTML : Bool) (hres : Except String String)
    (r : CrawlResult) : CrawlResult :=
  if saveHTML then
    match hres with
    | Except.ok h => { r with html := h }
    | Except.error _ => r
  else r

/-- Embeds `Crawler.Fetch` (crawler/crawler.go lines 169-250): the returned
`Result` (always carrying the input URL) together with the hard error
return value.  Tab-acquisition failure returns early with a hard error;
navigation failure records the error in the `Result` AND returns a hard
error (line 189); afterwards title, script and HTML outcomes only ever
touch the `Result`, and the hard error return is nil. -/
def fetchModel (env : FetchEnv) (saveHTML : Bool) (url jsScript : String) :
    CrawlResult × Option String :=
  let r0 : CrawlResult :=
    { url := url, title := "", html := "", data := none, error := "" }
  match env.acquire url with
  | Except.error e => (r0, some ("failed to create tab: " ++ e))
  | Except.ok _ =>
    match env.nav url with
    | some e =>
      ({ r0 with error := "navigation failed: " ++ e },
       some ("navigation failed: " ++ e))
    | none =>
      (applyHTML saveHTML (env.htmlOf url)
        (applyScript jsScript (env.script url)
          (applyTitle (env.titleJS url) r0)), none)

/-- Every path of `Fetch` returns a `Result` whose URL field is the
input URL. -/
theorem fetchModel_url (env : FetchEnv) (saveHTML : Bool)
    (url jsScript : String) :
    (fetchModel env saveHTML url jsScript).1.url = url := by
  have hts : ∀ (tres : Except String JsVal) (r : CrawlResult),
      (applyTitle tres r).url = r.url := by
    intro tres r
    unfold applyTitle
    rcases tres with e | t
    · rfl
    · cases t <;> rfl
  have hsc : ∀ (js : String) (sres : Except String JsVal) (r : CrawlResult),
      (applyScript js sres r).url = r.url := by
    intro js sres r
    unfold applyScript
    by_cases hjs : js = "" <;> rcases sres with e | v <;> simp [hjs]
  have hht : ∀ (sh : Bool) (hres : Except String String) (r : CrawlResult),
      (applyHTML sh hres r).url = r.url := by
    intro sh hres r
    unfold applyHTML
    rcases hres with e | h <;> cases sh <;> rfl
  unfold fetchModel
  rcases env.acquire url with e | u
  · rfl
  · rcases env.nav url with e | _
    · simp [hht, hsc, hts]
    · rfl

/-- Engine oracle in which everything succeeds (navigation ok, title and
script evaluate, HTML extraction works). -/
def envOk : FetchEnv :=
  { acquire := fun _ => Except.ok ()
    nav := fun _ => none
    titleJS := fun _ => Except.ok (JsVal.str "Example Domain")
    script := fun _ => Except.ok (JsVal.obj [("count", JsVal.num 3)])
    htmlOf := fun _ => Except.ok "<html></html>" }

/-- Engine oracle in which the tab is acquired but navigation fails. -/
def envNavFail : FetchEnv :=
  { envOk with nav := fun _ => some "net::ERR_CONNECTION_REFUSED" }

/-- Engine oracle in which tab acquisition itself fails. -/
def envAcqFail : FetchEnv :=
  { envOk with acquire := fun _ => Except.error "browser restart failed" }

/-- Engine oracle in which navigation succeeds but the script fails. -/
def envScriptFail : FetchEnv :=
  { envOk with script := fun _ => Except.error "ReferenceError" }

/-- C3 counterexample: with acquisition succeeding and navigation
failing, `Fetch` populates `Result.Error` but ALSO returns a non-nil
hard error — so tab-acquisition failure is not the only hard-error path
of `Fetch`, refuting the claim as stated. -/
theorem fetch_nav_hard_error_counterexample :
    (fetchModel envNavFail false "http://example.com" "document.title").1.error =
      "navigation failed: net::ERR_CONNECTION_REFUSED" ∧
    (fetchModel envNavFail false "http://example.com" "document.title").2 =
      some "navigation failed: net::ERR_CONNECTION_REFUSED" ∧
    ¬ ((fetchModel envNavFail false "http://example.com" "document.title").2 =
      none) := by
  refine ⟨rfl, rfl, ?_⟩
  intro h
  rw [show (fetchModel envNavFail false "http://example.com"
      "document.title").2 =
    some "navigation failed: net::ERR_CONNECTION_REFUSED" from rfl] at h
  exact Option.noConfusion h

/-- C3 amended: navigation failure short-circuits script execution and
still returns a populated `Result` with the error recorded, but the
navigation error is ALSO propagated as a hard (non-nil) error return;
the hard-error paths of `Fetch` are tab-acquisition failure and
navigation failure, while script failure is soft (recorded in the
`Result` only, hard error nil). -/
theorem fetch_error_paths (env : FetchEnv) (url jsScript eAcq eNav : String) :
    (env.acquire url = Except.error eAcq →
      (fetchModel env false url jsScript).2 =
        some ("failed to create tab: " ++ eAcq)) ∧
    (env.acquire url = Except.ok () → env.nav url = some eNav →
      (fetchModel env false url jsScript).1.error =
        "navigation failed: " ++ eNav ∧
      (fetchModel env false url jsScript).1.data = none ∧
      (fetchModel env false url jsScript).1.url = url ∧
      (fetchModel env false url jsScript).2 =
        some ("navigation failed: " ++ eNav)) ∧
    (env.acquire url = Except.ok () → env.nav url = none →
      (fetchModel env false url jsScript).2 = none) := by
  refine ⟨?_, ?_, ?_⟩
  · intro ha
    simp [fetchModel, ha]
  · intro ha hn
    simp [fetchModel, ha, hn]
  · intro ha hn
    simp [fetchModel, ha, hn]

/-- Witness for C3's amended statement: the three paths at concrete
oracles, including that a failing script is not a hard error. -/
theorem fetch_error_paths_witness :
    ((fetchModel envAcqFail false "http://a" "1+1").2 =
      some ("failed to create tab: " ++ "browser restart failed")) ∧
    ((fetchModel envNavFail false "http://a" "1+1").1.error =
        "navigation failed: " ++ "net::ERR_CONNECTION_REFUSED" ∧
      (fetchModel envNavFail false "http://a" "1+1").1.data = none ∧
      (fetchModel envNavFail false "http://a" "1+1").1.url = "http://a" ∧
      (fetchModel envNavFail false "http://a" "1+1").2 =
        some ("navigation failed: " ++ "net::ERR_CONNECTION_REFUSED")) ∧
    ((fetchModel envScriptFail false "http://a" "1+1").2 = none ∧
     (fetchModel envScriptFail false "http://a" "1+1").1.error =
       "script execution failed: " ++ "ReferenceError") :=
  ⟨(fetch_error_paths envAcqFail "http://a" "1+1" "browser restart failed"
      "x").1 rfl,
   (fetch_error_paths envNavFail "http://a" "1+1" "x"
      "net::ERR_CONNECTION_REFUSED").2.1 rfl rfl,
   (fetch_error_paths envScriptFail "http://a" "1+1" "x" "y").2.2 rfl rfl,
   rfl⟩

/-- Embeds `FetchAll` without cancellation (crawler/crawler.go lines 253-305):
the dispatcher sends every URL in order, each URL is processed by exactly
one worker via `Fetch`, and the worker sends the `Result` to the
collector whether or not `Fetch` also returned an error (lines 269-275).
This is the per-URL result list; the collector receives these results in
some scheduler-dependent order, i.e. a permutation of this list. -/
def fetchAllResults (env : FetchEnv) (saveHTML : Bool) (urls : List String)
    (jsScript : String) : List CrawlResult :=
  urls.map (fun u => (fetchModel env saveHTML u jsScript).1)

/-- C5: for any worker count C with 1 ≤ C ≤ N and no cancellation, any
collection order of `FetchAll`'s results has exactly N entries — one per
submitted URL, even for failed jobs — and the multiset of their URL
fields equals the multiset of input URLs. -/
theorem fetchAll_one_result_per_url (env : FetchEnv) (saveHTML : Bool)
    (urls : List String) (jsScript : String) (C : Nat)
    (results : List CrawlResult)
    (hC1 : 1 ≤ C) (hCN : C ≤ urls.length)
    (hperm : results.Perm (fetchAllResults env saveHTML urls jsScript)) :
    results.length = urls.length ∧
    (↑(results.map CrawlResult.url) : Multiset String) = ↑urls := by
  have hmap : (fetchAllResults env saveHTML urls jsScript).map CrawlResult.url
      = urls := by
    unfold fetchAllResults
    rw [List.map_map]
    have : ∀ u ∈ urls,
        (CrawlResult.url ∘ fun u => (fetchModel env saveHTML u jsScript).1) u
          = id u := by
      intro u _
      simpa using fetchModel_url env saveHTML u jsScript
    rw [List.map_congr_left this, List.map_id]
  constructor
  · rw [hperm.length_eq]
    unfold fetchAllResults
    exact List.length_map _ _
  · have hpm := hperm.map CrawlResult.url
    rw [hmap] at hpm
    exact Multiset.coe_eq_coe.mpr hpm

/-- Witness for C5: two URLs, one worker, everything succeeding,
collection in dispatch order. -/
theorem fetchAll_one_result_per_url_witness :
    (1 ≤ 1 ∧ 1 ≤ (["http://a", "http://b"] : List String).length) ∧
    ((fetchAllResults envOk false ["http://a", "http://b"] "x").length =
      (["http://a", "http://b"] : List String).length ∧
     (↑((fetchAllResults envOk false ["http://a", "http://b"] "x").map
        CrawlResult.url) : Multiset String) = ↑(["http://a", "http://b"] : List String)) :=
  ⟨⟨by decide, by decide⟩,
   fetchAll_one_result_per_url envOk false ["http://a", "http://b"] "x" 1
     (fetchAllResults envOk false ["http://a", "http://b"] "x")
     (by decide) (by decide) (List.Perm.refl _)⟩

/-- The dispatch loop of `FetchAll` (crawler/crawler.go lines 281-291)
under cancellation.  `cancelAt` is the index of the first loop iteration
at which the context is already cancelled (so `ctx.Done()` is ready from
then on); `pick i` models the Go scheduler's choice at iteration `i`
when both `select` cases are ready: `true` picks the `ctx.Done()` case.
Crucially, the `break` in that case only exits the `select`, not the
`for` loop, so the loop continues with the next URL either way; a URL is
left unsent only in an iteration whose `Done` case was picked.  Returns
the list of URLs actually sent to the workers. -/
def dispatchFrom (cancelAt : Nat) (pick : Nat → Bool) :
    Nat → List String → List String
  | _, [] => []
  | i, u :: rest =>
    if cancelAt ≤ i ∧ pick i then dispatchFrom cancelAt pick (i + 1) rest
    else u :: dispatchFrom cancelAt pick (i + 1) rest

/-- URLs sent by the whole dispatch goroutine. -/
def dispatched (cancelAt : Nat) (pick : Nat → Bool) (urls : List String) :
    List String :=
  dispatchFrom cancelAt pick 0 urls

/-- Results of a cancelled `FetchAll` run: the workers range over the URL
channel until it closes, never checking the context (crawler/crawler.go
lines 267-276), so every dispatched URL is fetched and yields a
result. -/
def fetchAllCancelled (env : FetchEnv) (saveHTML : Bool) (cancelAt : Nat)
    (pick : Nat → Bool) (urls : List String) (jsScript : String) :
    List CrawlResult :=
  (dispatched cancelAt pick urls).map
    (fun u => (fetchModel env saveHTML u jsScript).1)

/-- C6 failing run: two URLs, context cancelled before the loop starts
(`cancelAt = 0`), scheduler picking the ready `ctx.Done()` case at
iteration 0 and the send case at iteration 1.  The cancellation signal
is demonstrably observed (the first URL is dropped), yet dispatch
continues: the second URL is still sent and fetched, so the run yields
1 result although K = 0 URLs were dispatched before the signal — the
claim's "at most K results" and "dispatch stops" both fail on the
code. -/
theorem cancelled_dispatch_continues :
    dispatched 0 (fun i => i == 0) ["http://a", "http://b"] = ["http://b"] ∧
    (fetchAllCancelled envOk false 0 (fun i => i == 0)
      ["http://a", "http://b"] "x").length = 1 ∧
    ¬ ((fetchAllCancelled envOk false 0 (fun i => i == 0)
      ["http://a", "http://b"] "x").length ≤ 0) := by
  refine ⟨rfl, rfl, ?_⟩
  intro h
  rw [show (fetchAllCancelled envOk false 0 (fun i => i == 0)
      ["http://a", "http://b"] "x").length = 1 from rfl] at h
  exact Nat.not_succ_le_zero 0 h
